import Mathlib

/-!
Shallow embedding of the face-recognition-gated attendance workflow of
TimeTrack-V6 (src/frontend/static/js/timeclock-handler.js and
src/frontend/static/js/face-recognition.js), together with theorems that
settle the frozen claims about it.

Confidences are modelled as rationals, wall-clock instants as integer
minutes relative to the current calendar day's local midnight.
-/

namespace TimeTrack

/-- A face descriptor: a fixed-length numeric vector produced by the
descriptor extractor (face-api.js), modelled as a list of rationals. -/
abbrev FaceDescriptor := List ℚ

/-- The module-level captured face data (`capturedData` in
timeclock-handler.js): descriptor plus encoded image. -/
structure CapturedSample where
  descriptor : FaceDescriptor
  imageDataUrl : String
deriving DecidableEq

/-- The payload of a successful `/face/recognize` response. The
`confidence` field may be absent from the JSON body, hence `Option`. -/
structure EmployeeMatch where
  employee_name : String
  confidence : Option ℚ
deriving DecidableEq

/-- Result of `recognizeFace(descriptor, storeId)` in face-recognition.js:
either `{success: true, data}` or `{success: false, error}`. -/
inductive RecognizeResult where
  | success (data : EmployeeMatch)
  | failure (error : String)
deriving DecidableEq

/-- JavaScript `employee.confidence || 0`: an absent field and a zero value
are both falsy and yield `0`; any other number passes through. -/
def jsOrZero (c : Option ℚ) : ℚ :=
  match c with
  | none => 0
  | some v => if v = 0 then 0 else v

/-- The local minimum-confidence threshold `MIN_CONFIDENCE = 0.3` declared
in `captureFace` and in the add-appearance retry handler. -/
def MIN_CONFIDENCE : ℚ := 3 / 10

/-- The clock action being attempted (`currentAction`). -/
inductive ClockAction where
  | clockIn
  | clockOut
deriving DecidableEq

/-- What the `recognitionResult` element currently displays (the innerHTML
branches of `captureFace` and of the add-appearance retry handler). -/
inductive RecogDisplay where
  | blank
  | lowConfidenceMatch (name : String) (confidence : ℚ)
  | recognized (name : String) (confidence : ℚ)
  | notRecognized (error : String)
  | stillLowConfidence (confidence : ℚ)
  | retryRecognized (name : String) (confidence : ℚ)
  | stillNotRecognized
deriving DecidableEq

/-- The gate/UI state mutated by the timeclock workflow: the module-level
variables `currentAction` and `capturedData`, the camera stream, the photo
preview visibility, the confirm button's enabled flag, and the recognition
result display. -/
structure GateState where
  currentAction : Option ClockAction
  capturedData : Option CapturedSample
  cameraOn : Bool
  previewShown : Bool
  confirmEnabled : Bool
  display : RecogDisplay
deriving DecidableEq

/-- `hideCamera()` (timeclock-handler.js lines 303-323): stops the camera,
hides the camera container and photo preview, resets the confirm button to
enabled (`confirmPhotoBtn.disabled = false`), and clears `currentAction`
and `capturedData`. The `recognitionResult` element is not cleared. -/
def hideCamera (s : GateState) : GateState :=
  { s with
    cameraOn := false
    previewShown := false
    confirmEnabled := true
    currentAction := none
    capturedData := none }

/-- Result of `captureFaceFromVideo(video)`: a descriptor and an encoded
image, or a detection failure. -/
inductive CaptureResult where
  | success (descriptor : FaceDescriptor) (imageDataUrl : String)
  | failure (error : String)
deriving DecidableEq

/-- The continuation of `captureFace` after `await captureFaceFromVideo`
(lines 334-358): on failure only an error dialog is shown and the state is
unchanged; on success the sample is stored in `capturedData`, the camera is
stopped, the preview is shown and the confirm button is disabled. -/
def applyCaptureResult (s : GateState) (r : CaptureResult) : GateState :=
  match r with
  | .failure _ => s
  | .success d img =>
      { s with
        capturedData := some ⟨d, img⟩
        cameraOn := false
        previewShown := true
        confirmEnabled := false }

/-- The continuation of `captureFace` after `await recognizeFace`
(lines 371-447, excluding the add-appearance click handler it registers):
applies the 0.3 threshold to `employee.confidence || 0` on success, and
disables the confirm button on failure. It runs unconditionally, without
checking that the capture attempt is still live. -/
def applyRecognizeResult (s : GateState) (r : RecognizeResult) : GateState :=
  match r with
  | .success employee =>
      let confidence := jsOrZero employee.confidence
      if confidence < MIN_CONFIDENCE then
        { s with
          confirmEnabled := false
          display := .lowConfidenceMatch employee.employee_name confidence }
      else
        { s with
          confirmEnabled := true
          display := .recognized employee.employee_name confidence }
  | .failure e =>
      { s with
        confirmEnabled := false
        display := .notRecognized e }

/-- The retry branch of the add-appearance click handler after
`await recognizeFace(capturedData.descriptor, storeId)` (lines 509-574):
same 0.3 threshold; the still-not-recognized branch only rewrites the
display and does not touch the confirm button. -/
def applyRetryRecognizeResult (s : GateState) (r : RecognizeResult) : GateState :=
  match r with
  | .success employee =>
      let confidence := jsOrZero employee.confidence
      if confidence < MIN_CONFIDENCE then
        { s with
          confirmEnabled := false
          display := .stillLowConfidence confidence }
      else
        { s with
          confirmEnabled := true
          display := .retryRecognized employee.employee_name confidence }
  | .failure _ =>
      { s with display := .stillNotRecognized }

/-- Response to the `/face/add-appearance` POST: `data.success` with a
registration count, `data.success` false with an error, or a thrown
exception caught by the handler. -/
inductive AddAppearanceResponse where
  | success (total_registrations : ℕ)
  | failure (error : String)
  | exn (message : String)
deriving DecidableEq

/-- Observable effects of one click on `addAppearanceBtn`: the resulting
gate state, the `(employee_name, face_descriptor, face_image)` payloads
posted to `/face/add-appearance`, and the descriptors sent to
`/face/recognize` during the handler. -/
structure AddAppearanceEffects where
  state : GateState
  enrollRequests : List (String × FaceDescriptor × String)
  recognizeRequests : List FaceDescriptor
deriving DecidableEq

/-- The add-appearance click handler (lines 473-582). Its input is the
operator-entered name as read at the DOM boundary by
`employeeNameInput?.value.trim()`, i.e. already trimmed; the handler
rejects an empty name, requires a captured sample, posts the captured
descriptor and image as a new appearance, and on success re-runs
recognition exactly once with the same descriptor, classifying the result
through `applyRetryRecognizeResult`. -/
def addAppearanceClick (employeeName : String) (s : GateState)
    (addResp : AddAppearanceResponse) (retryResp : RecognizeResult) :
    AddAppearanceEffects :=
  if employeeName = "" then
    ⟨s, [], []⟩
  else
    match s.capturedData with
    | none => ⟨s, [], []⟩
    | some cd =>
        let enroll := [(employeeName, cd.descriptor, cd.imageDataUrl)]
        match addResp with
        | .success _ =>
            ⟨applyRetryRecognizeResult s retryResp, enroll, [cd.descriptor]⟩
        | .failure _ => ⟨s, enroll, []⟩
        | .exn _ => ⟨s, enroll, []⟩

/-- What `confirmAndProcess` decides before dispatching the clock request
(lines 591-617). -/
inductive SubmitDecision where
  | noData
  | recognitionAbort
  | proceed (sample : CapturedSample)
deriving DecidableEq

/-- The pre-submission gate of `confirmAndProcess`: abort with a warning
when no sample is captured; re-run recognition on the captured descriptor
and abort when that call reports failure; otherwise proceed to the
clock-in/clock-out request with the captured sample. Only
`verifyResult.success` is consulted — the confidence of the re-check is
not compared against `MIN_CONFIDENCE`. -/
def confirmAndProcessGate (capturedData : Option CapturedSample)
    (verifyResult : RecognizeResult) : SubmitDecision :=
  match capturedData with
  | none => .noData
  | some cd =>
      match verifyResult with
      | .failure _ => .recognitionAbort
      | .success _ => .proceed cd

/-- The structured error body of a rejected clock-in/clock-out request:
`{error, error_code, metadata:{window_start, window_end}}`, every field
possibly absent. -/
structure SubmissionError where
  error : Option String
  error_code : Option String
  window_start : Option String
  window_end : Option String
deriving DecidableEq

/-- Observable effects of the failure branch of `confirmAndProcess`
(lines 654-685): the gate state afterwards, whether `fetchStoreHours()`
was invoked, and the title of the error dialog. -/
structure SubmissionFailureEffects where
  state : GateState
  refreshedStoreHours : Bool
  errorDialogTitle : String
deriving DecidableEq

/-- JavaScript `result.error_code || defaultCode` for string fields: an
absent field and the empty string are falsy. -/
def jsOrString (v : Option String) (dflt : String) : String :=
  match v with
  | none => dflt
  | some s => if s = "" then dflt else s

/-- The failure branch of `confirmAndProcess`: shows an error dialog whose
title depends on whether the error code is OUTSIDE_CLOCK_WINDOW or
STORE_CLOSED_LOGIN, then calls `fetchStoreHours()` unconditionally. It
does not call `hideCamera` and leaves `capturedData`, `currentAction` and
the confirm button untouched. -/
def onSubmissionFailure (s : GateState) (err : SubmissionError) :
    SubmissionFailureEffects :=
  let errorCode := jsOrString err.error_code "UNKNOWN_ERROR"
  { state := s
    refreshedStoreHours := true
    errorDialogTitle :=
      if errorCode = "OUTSIDE_CLOCK_WINDOW" ∨ errorCode = "STORE_CLOSED_LOGIN"
      then "Store Hours Restriction" else "Error" }

/-- A wall-clock time of day obtained from an HH:MM string by
`split(':').map(Number)`. -/
structure StoreClockTime where
  hour : ℕ
  min : ℕ
deriving DecidableEq

/-- Minutes after the current day's local midnight. -/
def minutesFromMidnight (t : StoreClockTime) : ℤ :=
  (t.hour : ℤ) * 60 + (t.min : ℤ)

/-- The overnight test of `fetchStoreHours` (line 152):
`closeHour < openHour || (closeHour === openHour && closeMin < openMin)`. -/
def isOvernight (opening closing : StoreClockTime) : Bool :=
  decide (closing.hour < opening.hour) ||
    (decide (closing.hour = opening.hour) && decide (closing.min < opening.min))

/-- The clock window, as minute offsets from today's local midnight
(the `clockWindowStart` / `clockWindowEnd` Dates in the source). -/
structure ClockWindow where
  windowStart : ℤ
  windowEnd : ℤ
deriving DecidableEq

/-- Lines 140-154: start is `setHours(openHour, openMin - 30)` on today
(JavaScript normalises a negative minute count), the end is
`setHours(closeHour, closeMin + 30)` on today, then `setDate(+1)` adds one
calendar day when the overnight test holds. -/
def computeClockWindow (opening closing : StoreClockTime) : ClockWindow :=
  let start := minutesFromMidnight opening - 30
  let stop := minutesFromMidnight closing + 30
  if isOvernight opening closing then
    ⟨start, stop + 1440⟩
  else
    ⟨start, stop⟩

/-- The store-hours record kept in the module variable `storeHours`. -/
structure StoreHours where
  opening_time : StoreClockTime
  closing_time : StoreClockTime
  timezone : String
deriving DecidableEq

/-- The module-level store-hours state: `storeHours`, `clockWindowStart`
and `clockWindowEnd`. -/
structure StoreHoursState where
  storeHours : Option StoreHours
  clockWindowStart : Option ℤ
  clockWindowEnd : Option ℤ
deriving DecidableEq

/-- Outcome of the store-hours fetch in `fetchStoreHours`: the request
threw, or the store has no configured opening/closing time, or both times
are configured (the timezone field may be absent). -/
inductive StoreHoursFetch where
  | fetchError
  | noHoursConfigured
  | hoursConfigured (opening closing : StoreClockTime) (timezone : Option String)
deriving DecidableEq

/-- `fetchStoreHours` (lines 123-170): with configured hours it stores
them (timezone defaulted to UTC) and computes the window; with no
configured hours it clears all three variables; on a fetch error it clears
only `storeHours` (the catch block at line 167). -/
def fetchStoreHoursUpdate (s : StoreHoursState) (r : StoreHoursFetch) :
    StoreHoursState :=
  match r with
  | .hoursConfigured opening closing tz =>
      let w := computeClockWindow opening closing
      { storeHours := some ⟨opening, closing, jsOrString tz "UTC"⟩
        clockWindowStart := some w.windowStart
        clockWindowEnd := some w.windowEnd }
  | .noHoursConfigured =>
      { storeHours := none, clockWindowStart := none, clockWindowEnd := none }
  | .fetchError =>
      { s with storeHours := none }

/-- `updateClockButtonsState` (lines 173-233), reduced to the enablement
decision: with `storeHours` or either window bound missing the buttons are
enabled; otherwise they are enabled iff
`now >= clockWindowStart && now <= clockWindowEnd`. -/
def clockButtonsEnabled (s : StoreHoursState) (now : ℤ) : Bool :=
  match s.storeHours, s.clockWindowStart, s.clockWindowEnd with
  | some _, some st, some en => decide (st ≤ now) && decide (now ≤ en)
  | _, _, _ => true

/-- A concrete captured sample used to evaluate the pre-submission gate. -/
def sampleA : CapturedSample := ⟨[1/2, 1/4], "img-a"⟩

/-- A concrete captured sample used to evaluate the enrollment retry. -/
def sampleB : CapturedSample := ⟨[3/8, 7/8], "img-b"⟩

/-- The idle gate state: no pending action, no sample, camera off. -/
def gateIdle : GateState :=
  { currentAction := none
    capturedData := none
    cameraOn := false
    previewShown := false
    confirmEnabled := true
    display := .blank }

/-- A concrete gate state in which the first recognition of `sampleB`
scored confidence 0.25 and was classified as a low-confidence match. -/
def gateLowConf : GateState :=
  { currentAction := some .clockIn
    capturedData := some sampleB
    cameraOn := false
    previewShown := true
    confirmEnabled := false
    display := .lowConfidenceMatch "Jane Doe" (1/4) }

/-- A concrete gate state in the middle of `captureFace`: the sample is
captured and stored, the recognition request is in flight. -/
def gateMidRecognition : GateState :=
  applyCaptureResult
    { gateIdle with currentAction := some .clockIn, cameraOn := true }
    (.success [1/2] "img-c")

theorem jsOrZero_some (c : ℚ) : jsOrZero (some c) = c := by
  show (if c = 0 then 0 else c) = c
  split
  next h => exact h.symm
  next => rfl

theorem applyRecognizeResult_confirmEnabled (s : GateState) (nm : String)
    (c : ℚ) :
    (applyRecognizeResult s (.success ⟨nm, some c⟩)).confirmEnabled
      = decide (MIN_CONFIDENCE ≤ c) := by
  simp only [applyRecognizeResult, jsOrZero_some]
  split
  next h => simpa using (decide_eq_false (not_le.2 h)).symm
  next h => simpa using (decide_eq_true (not_lt.1 h)).symm

theorem applyRetryRecognizeResult_confirmEnabled (s : GateState)
    (nm : String) (c : ℚ) :
    (applyRetryRecognizeResult s (.success ⟨nm, some c⟩)).confirmEnabled
      = decide (MIN_CONFIDENCE ≤ c) := by
  simp only [applyRetryRecognizeResult, jsOrZero_some]
  split
  next h => simpa using (decide_eq_false (not_le.2 h)).symm
  next h => simpa using (decide_eq_true (not_lt.1 h)).symm

theorem isOvernight_eq_false (opening closing : StoreClockTime)
    (hom : opening.min < 60) (hcm : closing.min < 60)
    (hle : minutesFromMidnight opening ≤ minutesFromMidnight closing) :
    isOvernight opening closing = false := by
  simp only [minutesFromMidnight] at hle
  simp only [isOvernight, Bool.or_eq_false_iff, Bool.and_eq_false_iff,
    decide_eq_false_iff_not]
  omega

theorem isOvernight_eq_true (opening closing : StoreClockTime)
    (hom : opening.min < 60)
    (hlt : minutesFromMidnight closing < minutesFromMidnight opening) :
    isOvernight opening closing = true := by
  simp only [minutesFromMidnight] at hlt
  simp only [isOvernight, Bool.or_eq_true, Bool.and_eq_true,
    decide_eq_true_eq]
  omega

/-- C1: for a recognition response with confidence `c`, the gate enables
the submit action iff `c >= 0.30`; a failed recognition leaves it
disabled, so a match below the threshold is gated exactly like no match;
and the boundary `c = 0.30` is confirmed (the comparison is a strict
less-than against `MIN_CONFIDENCE`). -/
theorem confidence_threshold_gate (s : GateState) (name e : String)
    (c : ℚ) :
    (applyRecognizeResult s (.success ⟨name, some c⟩)).confirmEnabled
        = decide (MIN_CONFIDENCE ≤ c)
    ∧ (applyRecognizeResult s (.failure e)).confirmEnabled = false
    ∧ (applyRecognizeResult s
        (.success ⟨name, some MIN_CONFIDENCE⟩)).confirmEnabled = true := by
  refine ⟨applyRecognizeResult_confirmEnabled s name c, rfl, ?_⟩
  rw [applyRecognizeResult_confirmEnabled s name MIN_CONFIDENCE]
  exact decide_eq_true le_rfl

/-- C9: a successful recognition response with an absent confidence field
substitutes 0 for the confidence, which falls below the 0.30 threshold, so
the submit action stays disabled in both the initial recognition and the
enrollment-retry re-recognition. -/
theorem absent_confidence_stays_disabled (s : GateState) (name : String) :
    jsOrZero none = 0
    ∧ (applyRecognizeResult s (.success ⟨name, none⟩)).confirmEnabled = false
    ∧ (applyRetryRecognizeResult s
        (.success ⟨name, none⟩)).confirmEnabled = false := by
  have h0 : jsOrZero none < MIN_CONFIDENCE := by
    norm_num [jsOrZero, MIN_CONFIDENCE]
  refine ⟨rfl, ?_, ?_⟩
  · simp only [applyRecognizeResult, if_pos h0]
  · simp only [applyRetryRecognizeResult, if_pos h0]

/-- C2 counterexample: the pre-submission re-check lets through a match
whose confidence 0.10 is below `MIN_CONFIDENCE`: `confirmAndProcess`
proceeds to the clock request instead of aborting. -/
theorem recheck_low_confidence_proceeds :
    (1 : ℚ) / 10 < MIN_CONFIDENCE
    ∧ confirmAndProcessGate (some sampleA)
        (.success ⟨"Jane Doe", some (1 / 10)⟩) = .proceed sampleA := by
  exact ⟨by norm_num [MIN_CONFIDENCE], rfl⟩

/-- C2 amended: the pre-submission gate aborts with a warning when no
sample is captured and with a recognition error when the re-check call
fails, and proceeds on any successful re-check response regardless of its
confidence — the 0.30 threshold is not re-applied at re-verification. -/
theorem recheck_gate_spec (cd : CapturedSample) (v : RecognizeResult)
    (e : String) (m : EmployeeMatch) :
    confirmAndProcessGate none v = .noData
    ∧ confirmAndProcessGate (some cd) (.failure e) = .recognitionAbort
    ∧ confirmAndProcessGate (some cd) (.success m) = .proceed cd := by
  refine ⟨?_, rfl, rfl⟩
  cases v <;> rfl

/-- C8: with a nonempty operator-entered name and a captured sample, the
add-appearance click posts exactly that name with the captured descriptor
and image as one new appearance, re-runs recognition exactly once with the
same captured descriptor, classifies a matched retry through the same 0.30
threshold, leaves a failed retry as still-not-recognized, and performs no
further recognition calls for this capture. -/
theorem enrollment_retry_spec (employeeName : String) (s : GateState)
    (cd : CapturedSample) (total : ℕ) (r : RecognizeResult)
    (nm e : String) (c : ℚ)
    (hname : employeeName ≠ "") (hcd : s.capturedData = some cd) :
    (addAppearanceClick employeeName s (.success total) r).enrollRequests
        = [(employeeName, cd.descriptor, cd.imageDataUrl)]
    ∧ (addAppearanceClick employeeName s (.success total) r).recognizeRequests
        = [cd.descriptor]
    ∧ (addAppearanceClick employeeName s (.success total) r).state
        = applyRetryRecognizeResult s r
    ∧ (addAppearanceClick employeeName s (.success total)
        (.success ⟨nm, some c⟩)).state.confirmEnabled
        = decide (MIN_CONFIDENCE ≤ c)
    ∧ (addAppearanceClick employeeName s (.success total)
        (.failure e)).state.display = .stillNotRecognized := by
  have hmain : ∀ rr : RecognizeResult,
      addAppearanceClick employeeName s (.success total) rr
        = ⟨applyRetryRecognizeResult s rr,
           [(employeeName, cd.descriptor, cd.imageDataUrl)],
           [cd.descriptor]⟩ := by
    intro rr
    simp only [addAppearanceClick, hcd, if_neg hname]
  refine ⟨?_, ?_, ?_, ?_, ?_⟩
  · rw [hmain]
  · rw [hmain]
  · rw [hmain]
  · rw [hmain]
    exact applyRetryRecognizeResult_confirmEnabled s nm c
  · rw [hmain]
    rfl

/-- C8 witness: the enrollment-retry specification evaluated for operator
name Jane Doe, the concrete low-confidence state of `sampleB`, and a retry
that scores confidence 0.55. -/
theorem enrollment_retry_spec_witness :
    (addAppearanceClick "Jane Doe" gateLowConf (.success 2)
        (.success ⟨"Jane Doe", some (11 / 20)⟩)).enrollRequests
        = [("Jane Doe", sampleB.descriptor, sampleB.imageDataUrl)]
    ∧ (addAppearanceClick "Jane Doe" gateLowConf (.success 2)
        (.success ⟨"Jane Doe", some (11 / 20)⟩)).recognizeRequests
        = [sampleB.descriptor]
    ∧ (addAppearanceClick "Jane Doe" gateLowConf (.success 2)
        (.success ⟨"Jane Doe", some (11 / 20)⟩)).state
        = applyRetryRecognizeResult gateLowConf
            (.success ⟨"Jane Doe", some (11 / 20)⟩)
    ∧ (addAppearanceClick "Jane Doe" gateLowConf (.success 2)
        (.success ⟨"Jane Doe", some (11 / 20)⟩)).state.confirmEnabled
        = decide (MIN_CONFIDENCE ≤ 11 / 20)
    ∧ (addAppearanceClick "Jane Doe" gateLowConf (.success 2)
        (.failure "no match")).state.display = .stillNotRecognized :=
  enrollment_retry_spec "Jane Doe" gateLowConf sampleB 2
    (.success ⟨"Jane Doe", some (11 / 20)⟩) "Jane Doe" "no match" (11 / 20)
    (by decide) rfl

/-- C3: cancelling mid-recognition via `hideCamera` does release the
camera, discard the sample and return the gate to idle — but a recognition
response that arrives after the cancellation is still applied: it rewrites
the recognition display, and with the confirm button left enabled by the
cancellation reset the submit action stays enabled although no sample is
captured. -/
theorem late_recognition_mutates_cancelled_state :
    (hideCamera gateMidRecognition).cameraOn = false
    ∧ (hideCamera gateMidRecognition).currentAction = none
    ∧ (hideCamera gateMidRecognition).capturedData = none
    ∧ applyRecognizeResult (hideCamera gateMidRecognition)
        (.success ⟨"Jane Doe", some (41 / 50)⟩)
        ≠ hideCamera gateMidRecognition
    ∧ (applyRecognizeResult (hideCamera gateMidRecognition)
        (.success ⟨"Jane Doe", some (41 / 50)⟩)).confirmEnabled = true
    ∧ (applyRecognizeResult (hideCamera gateMidRecognition)
        (.success ⟨"Jane Doe", some (41 / 50)⟩)).capturedData = none := by
  have hnlt : ¬ (jsOrZero (some ((41 : ℚ) / 50)) < MIN_CONFIDENCE) := by
    rw [jsOrZero_some]
    norm_num [MIN_CONFIDENCE]
  have happ : applyRecognizeResult (hideCamera gateMidRecognition)
      (.success ⟨"Jane Doe", some (41 / 50)⟩)
      = { hideCamera gateMidRecognition with
          confirmEnabled := true
          display := .recognized "Jane Doe" (jsOrZero (some (41 / 50))) } := by
    simp only [applyRecognizeResult, if_neg hnlt]
  have hdisp : (hideCamera gateMidRecognition).display = .blank := rfl
  refine ⟨rfl, rfl, rfl, ?_, ?_, ?_⟩
  · rw [happ]
    intro h
    have hd := congrArg GateState.display h
    rw [hdisp] at hd
    simp at hd
  · rw [happ]
  · rw [happ]
    rfl

/-- C4: when the configured closing time is strictly earlier than the
opening time, the window end is the closing time plus 30 minutes advanced
by one calendar day, the invariant start <= end holds after the
adjustment, and opening 22:00 with closing 02:00 yields 21:30 today
(minute 1290) to 02:30 the next day (minute 1590). -/
theorem clock_window_overnight (opening closing : StoreClockTime)
    (hoh : opening.hour < 24) (hom : opening.min < 60)
    (hcm : closing.min < 60)
    (hlt : minutesFromMidnight closing < minutesFromMidnight opening) :
    computeClockWindow opening closing
        = ⟨minutesFromMidnight opening - 30,
           minutesFromMidnight closing + 30 + 1440⟩
    ∧ (computeClockWindow opening closing).windowStart
        ≤ (computeClockWindow opening closing).windowEnd
    ∧ computeClockWindow ⟨22, 0⟩ ⟨2, 0⟩ = ⟨1290, 1590⟩ := by
  have hov := isOvernight_eq_true opening closing hom hlt
  have hw : computeClockWindow opening closing
      = ⟨minutesFromMidnight opening - 30,
         minutesFromMidnight closing + 30 + 1440⟩ := by
    simp only [computeClockWindow, hov, if_true]
  refine ⟨hw, ?_, by decide⟩
  rw [hw]
  simp only [minutesFromMidnight] at hlt ⊢
  omega

/-- C4 witness: the overnight window evaluated at opening 22:00 and
closing 02:00. -/
theorem clock_window_overnight_witness :
    computeClockWindow ⟨22, 0⟩ ⟨2, 0⟩
        = ⟨minutesFromMidnight ⟨22, 0⟩ - 30,
           minutesFromMidnight ⟨2, 0⟩ + 30 + 1440⟩
    ∧ (computeClockWindow ⟨22, 0⟩ ⟨2, 0⟩).windowStart
        ≤ (computeClockWindow ⟨22, 0⟩ ⟨2, 0⟩).windowEnd
    ∧ computeClockWindow ⟨22, 0⟩ ⟨2, 0⟩ = ⟨1290, 1590⟩ :=
  clock_window_overnight ⟨22, 0⟩ ⟨2, 0⟩ (by decide) (by decide) (by decide)
    (by decide)

/-- C5: with closing at or after opening, the window is opening minus 30
minutes to closing plus 30 minutes on the current calendar day (no day
adjustment), a clock action is permitted iff start <= now <= end with both
bounds inclusive, and opening 09:00 with closing 21:00 yields the window
from minute 510 (08:30) to minute 1290 (21:30) of the same day. -/
theorem clock_window_same_day (opening closing : StoreClockTime)
    (now : ℤ) (tz : Option String) (s : StoreHoursState)
    (hom : opening.min < 60) (hcm : closing.min < 60)
    (hle : minutesFromMidnight opening ≤ minutesFromMidnight closing) :
    computeClockWindow opening closing
        = ⟨minutesFromMidnight opening - 30,
           minutesFromMidnight closing + 30⟩
    ∧ (clockButtonsEnabled
          (fetchStoreHoursUpdate s (.hoursConfigured opening closing tz))
          now = true
        ↔ minutesFromMidnight opening - 30 ≤ now
            ∧ now ≤ minutesFromMidnight closing + 30)
    ∧ computeClockWindow ⟨9, 0⟩ ⟨21, 0⟩ = ⟨510, 1290⟩ := by
  have hov := isOvernight_eq_false opening closing hom hcm hle
  have hw : computeClockWindow opening closing
      = ⟨minutesFromMidnight opening - 30,
         minutesFromMidnight closing + 30⟩ := by
    simp only [computeClockWindow, hov]
    exact if_neg (by simp)
  refine ⟨hw, ?_, by decide⟩
  simp only [fetchStoreHoursUpdate, clockButtonsEnabled, hw,
    Bool.and_eq_true, decide_eq_true_eq]

/-- C5 witness: the same-day window and the inclusive permission test
evaluated at opening 09:00, closing 21:00 and the instant 600 minutes
after midnight (10:00). -/
theorem clock_window_same_day_witness :
    computeClockWindow ⟨9, 0⟩ ⟨21, 0⟩
        = ⟨minutesFromMidnight ⟨9, 0⟩ - 30,
           minutesFromMidnight ⟨21, 0⟩ + 30⟩
    ∧ (clockButtonsEnabled
          (fetchStoreHoursUpdate ⟨none, none, none⟩
            (.hoursConfigured ⟨9, 0⟩ ⟨21, 0⟩ none)) 600 = true
        ↔ minutesFromMidnight ⟨9, 0⟩ - 30 ≤ 600
            ∧ 600 ≤ minutesFromMidnight ⟨21, 0⟩ + 30)
    ∧ computeClockWindow ⟨9, 0⟩ ⟨21, 0⟩ = ⟨510, 1290⟩ :=
  clock_window_same_day ⟨9, 0⟩ ⟨21, 0⟩ 600 none ⟨none, none, none⟩
    (by decide) (by decide) (by decide)

/-- C6: after a store-hours fetch that fails or reports no configured
opening/closing time, the clock buttons are enabled at every timestamp,
whatever store-hours state was cached before. -/
theorem missing_hours_fail_open (s : StoreHoursState) (now : ℤ) :
    clockButtonsEnabled (fetchStoreHoursUpdate s .fetchError) now = true
    ∧ clockButtonsEnabled
        (fetchStoreHoursUpdate s .noHoursConfigured) now = true := by
  rcases s with ⟨sh, st, en⟩
  refine ⟨?_, rfl⟩
  cases st <;> cases en <;> rfl

/-- C6 witness: the fail-open behaviour evaluated on a cached state that
still holds a window from an earlier successful fetch. -/
theorem missing_hours_fail_open_witness :
    clockButtonsEnabled
        (fetchStoreHoursUpdate ⟨some ⟨⟨9, 0⟩, ⟨21, 0⟩, "UTC"⟩,
          some 510, some 1290⟩ .fetchError) 2000 = true
    ∧ clockButtonsEnabled
        (fetchStoreHoursUpdate ⟨some ⟨⟨9, 0⟩, ⟨21, 0⟩, "UTC"⟩,
          some 510, some 1290⟩ .noHoursConfigured) 2000 = true :=
  missing_hours_fail_open ⟨some ⟨⟨9, 0⟩, ⟨21, 0⟩, "UTC"⟩,
    some 510, some 1290⟩ 2000

/-- C7 counterexample: a rejection whose error code is SERVER_ERROR, which
is neither OUTSIDE_CLOCK_WINDOW nor STORE_CLOSED_LOGIN, still triggers the
store-hours refresh. -/
theorem nonwindow_failure_still_refreshes :
    (onSubmissionFailure gateIdle
        ⟨some "Server error", some "SERVER_ERROR", none, none⟩
      ).refreshedStoreHours = true
    ∧ jsOrString (some "SERVER_ERROR") "UNKNOWN_ERROR"
        ≠ "OUTSIDE_CLOCK_WINDOW"
    ∧ jsOrString (some "SERVER_ERROR") "UNKNOWN_ERROR"
        ≠ "STORE_CLOSED_LOGIN"
    ∧ (onSubmissionFailure gateIdle
        ⟨some "Server error", some "SERVER_ERROR", none, none⟩
      ).errorDialogTitle = "Error" := by
  decide

/-- C7 amended: every backend rejection triggers the store-hours refresh,
whatever the error code; the rejection leaves the gate state (captured
sample, pending action, confirm button) unchanged; the error code only
selects the title of the error dialog, with OUTSIDE_CLOCK_WINDOW and
STORE_CLOSED_LOGIN labelled as a store-hours restriction. -/
theorem submission_failure_spec (s : GateState) (err : SubmissionError) :
    (onSubmissionFailure s err).refreshedStoreHours = true
    ∧ (onSubmissionFailure s err).state = s
    ∧ (onSubmissionFailure s err).errorDialogTitle
        = (if jsOrString err.error_code "UNKNOWN_ERROR"
              = "OUTSIDE_CLOCK_WINDOW"
            ∨ jsOrString err.error_code "UNKNOWN_ERROR"
              = "STORE_CLOSED_LOGIN"
           then "Store Hours Restriction" else "Error") :=
  ⟨rfl, rfl, rfl⟩

/-- C10: when opening and closing times are exactly equal the overnight
test is false, no day is added to the window end, and the window spans the
time minus 30 minutes to the time plus 30 minutes — one hour on the same
calendar day. -/
theorem clock_window_equal_times (t : StoreClockTime) :
    isOvernight t t = false
    ∧ computeClockWindow t t
        = ⟨minutesFromMidnight t - 30, minutesFromMidnight t + 30⟩
    ∧ (computeClockWindow t t).windowEnd
        - (computeClockWindow t t).windowStart = 60 := by
  have hov : isOvernight t t = false := by
    simp [isOvernight]
  have hw : computeClockWindow t t
      = ⟨minutesFromMidnight t - 30, minutesFromMidnight t + 30⟩ := by
    simp only [computeClockWindow, hov]
    exact if_neg (by simp)
  refine ⟨hov, hw, ?_⟩
  rw [hw]
  show minutesFromMidnight t + 30 - (minutesFromMidnight t - 30) = 60
  omega

end TimeTrack
